import Mathlib

/-!
Verification development for the quant-commander sample-data generator
(`generate_sample_data.py`) and performance ranker (`analyze_reg.py`).

The Python sources are shallowly embedded as executable Lean definitions:

* Python machine floats are modelled as exact unnormalized rationals
  (`PyF`, a numerator/denominator pair); `int(...)` is truncation toward
  zero (`pyInt`).  The claims settled here depend on the order of the
  multiplicative composition and where truncation happens, not on binary
  floating-point rounding, so the exact-rational model is adequate.
* The ambient CPython `random` module is modelled as an explicit state
  (`RNG`): a deterministic oracle, indexed by the current seed and by the
  position of the draw, standing in for the Mersenne-Twister stream.
  `random.seed n` resets the state to position 0 under seed `n`
  (`seedGen`); every draw consumes one position.  This captures exactly
  what the reproducibility claims are about: each drawn value is a pure
  function of (seed, position in the fixed call order).
* Python strings are Lean `String`s; `str.lower` and substring
  containment (`in`) are modelled on the lists of code points
  (`pyLower`, `isSubstrB`); this is exact for the ASCII inputs the
  keyword tables use.
* pandas float division is modelled by `PFloat`: `NaN`/`±Inf` plus exact
  rational values (`x / 0` is `NaN` for `x = 0` and `±Inf` otherwise,
  which is what numpy float division produces).
* Calendar dates are day ordinals (`daysFromCivil` converts a
  `YYYY-MM-DD` civil date); `strftime`-formatted ISO dates compare in the
  same order as their ordinals.
-/

deriving instance DecidableEq for Except

/-- Unnormalized rational number: an exact model of the Python float values
occurring in the budget computation (numerator `n` over denominator `d`,
`d > 0` in every use below). -/
structure PyF where
  n : ℤ
  d : ℤ
deriving DecidableEq

/-- Multiplication of `PyF` values. -/
def PyF.mul (a b : PyF) : PyF := ⟨a.n * b.n, a.d * b.d⟩

/-- Addition of `PyF` values. -/
def PyF.add (a b : PyF) : PyF := ⟨a.n * b.d + b.n * a.d, a.d * b.d⟩

/-- Subtraction of `PyF` values. -/
def PyF.sub (a b : PyF) : PyF := ⟨a.n * b.d - b.n * a.d, a.d * b.d⟩

/-- Embed an integer as a `PyF`. -/
def PyF.ofInt (z : ℤ) : PyF := ⟨z, 1⟩

/-- Python `int(...)` applied to a float value: truncation toward zero. -/
def pyInt (p : PyF) : ℤ := Int.tdiv p.n p.d

/-- Model of the state of the CPython `random` module.  `nats` and `units`
are the deterministic draw oracles (a function of the seed and of the
position of the draw in the call sequence, abstracting the Mersenne
Twister), `seed` is the seed currently in force and `idx` the position of
the next draw.  The state is process-wide in Python; here it is passed
explicitly through every operation that touches it. -/
structure RNG where
  nats : ℕ → ℕ → ℕ
  units : ℕ → ℕ → PyF
  seed : ℕ
  idx : ℕ

/-- Advance the generator by one draw. -/
def RNG.next (g : RNG) : RNG := { g with idx := g.idx + 1 }

/-- Model of `random.seed n`: the stream is reset to position 0 under seed
`n`; whatever state the module held before is discarded. -/
def seedGen (n : ℕ) (g : RNG) : RNG := { g with seed := n, idx := 0 }

/-- Model of `random.randint(lo, hi)`: uniform draw from the inclusive
integer range `[lo, hi]`. -/
def randint (lo hi : ℤ) (g : RNG) : ℤ × RNG :=
  (lo + (g.nats g.seed g.idx : ℤ) % (hi - lo + 1), g.next)

/-- Model of `random.choice(xs)` on a list of strings.  The empty-list case
(an `IndexError` in Python) is unreachable from `generate_data`, which only
passes the nonempty static tables; it is given the default `""`. -/
def pychoice (xs : List String) (g : RNG) : String × RNG :=
  (xs.getD (g.nats g.seed g.idx % xs.length) "", g.next)

/-- Model of `random.uniform(a, b)`: `a + (b - a) * u` with `u` the next
unit draw of the stream. -/
def uniformF (a b : PyF) (g : RNG) : PyF × RNG :=
  (PyF.add a (PyF.mul (PyF.sub b a) (g.units g.seed g.idx)), g.next)

/-- Code points of a string. -/
def strCodes (s : String) : List ℕ := s.data.map Char.toNat

/-- Model of Python `str.lower()` at the level of code points (exact on the
ASCII inputs used by the keyword tables). -/
def pyLower (s : String) : List ℕ :=
  s.data.map (fun c => let n := c.toNat; if 65 ≤ n ∧ n ≤ 90 then n + 32 else n)

/-- Model of the Python substring test `needle in hay`. -/
def isSubstrB (needle hay : List ℕ) : Bool :=
  hay.tails.any (fun t => needle.isPrefixOf t)

/-- Source table `STATES_CITIES`: the 50 states with three cities each, in
the dictionary's insertion order. -/
def STATES_CITIES : List (String × List String) :=
  [("Alabama", ["Birmingham", "Mobile", "Montgomery"]),
   ("Alaska", ["Anchorage", "Fairbanks", "Juneau"]),
   ("Arizona", ["Phoenix", "Tucson", "Mesa"]),
   ("Arkansas", ["Little Rock", "Fort Smith", "Fayetteville"]),
   ("California", ["Los Angeles", "San Diego", "San Jose"]),
   ("Colorado", ["Denver", "Colorado Springs", "Aurora"]),
   ("Connecticut", ["Bridgeport", "New Haven", "Hartford"]),
   ("Delaware", ["Wilmington", "Dover", "Newark"]),
   ("Florida", ["Jacksonville", "Miami", "Tampa"]),
   ("Georgia", ["Atlanta", "Columbus", "Augusta"]),
   ("Hawaii", ["Honolulu", "Pearl City", "Hilo"]),
   ("Idaho", ["Boise", "Meridian", "Nampa"]),
   ("Illinois", ["Chicago", "Aurora", "Rockford"]),
   ("Indiana", ["Indianapolis", "Fort Wayne", "Evansville"]),
   ("Iowa", ["Des Moines", "Cedar Rapids", "Davenport"]),
   ("Kansas", ["Wichita", "Overland Park", "Kansas City"]),
   ("Kentucky", ["Louisville", "Lexington", "Bowling Green"]),
   ("Louisiana", ["New Orleans", "Baton Rouge", "Shreveport"]),
   ("Maine", ["Portland", "Lewiston", "Bangor"]),
   ("Maryland", ["Baltimore", "Frederick", "Rockville"]),
   ("Massachusetts", ["Boston", "Worcester", "Springfield"]),
   ("Michigan", ["Detroit", "Grand Rapids", "Warren"]),
   ("Minnesota", ["Minneapolis", "Saint Paul", "Rochester"]),
   ("Mississippi", ["Jackson", "Gulfport", "Southaven"]),
   ("Missouri", ["Kansas City", "Saint Louis", "Springfield"]),
   ("Montana", ["Billings", "Missoula", "Great Falls"]),
   ("Nebraska", ["Omaha", "Lincoln", "Bellevue"]),
   ("Nevada", ["Las Vegas", "Henderson", "Reno"]),
   ("New Hampshire", ["Manchester", "Nashua", "Concord"]),
   ("New Jersey", ["Newark", "Jersey City", "Paterson"]),
   ("New Mexico", ["Albuquerque", "Las Cruces", "Rio Rancho"]),
   ("New York", ["New York City", "Buffalo", "Rochester"]),
   ("North Carolina", ["Charlotte", "Raleigh", "Greensboro"]),
   ("North Dakota", ["Fargo", "Bismarck", "Grand Forks"]),
   ("Ohio", ["Columbus", "Cleveland", "Cincinnati"]),
   ("Oklahoma", ["Oklahoma City", "Tulsa", "Norman"]),
   ("Oregon", ["Portland", "Eugene", "Salem"]),
   ("Pennsylvania", ["Philadelphia", "Pittsburgh", "Allentown"]),
   ("Rhode Island", ["Providence", "Warwick", "Cranston"]),
   ("South Carolina", ["Charleston", "Columbia", "North Charleston"]),
   ("South Dakota", ["Sioux Falls", "Rapid City", "Aberdeen"]),
   ("Tennessee", ["Nashville", "Memphis", "Knoxville"]),
   ("Texas", ["Houston", "San Antonio", "Dallas"]),
   ("Utah", ["Salt Lake City", "West Valley City", "Provo"]),
   ("Vermont", ["Burlington", "Essex", "South Burlington"]),
   ("Virginia", ["Virginia Beach", "Norfolk", "Chesapeake"]),
   ("Washington", ["Seattle", "Spokane", "Tacoma"]),
   ("West Virginia", ["Charleston", "Huntington", "Parkersburg"]),
   ("Wisconsin", ["Milwaukee", "Madison", "Green Bay"]),
   ("Wyoming", ["Cheyenne", "Casper", "Laramie"])]

/-- Source list `DEFAULT_PRODUCTS`. -/
def DEFAULT_PRODUCTS : List String :=
  ["Premium Laptop Pro", "Smart Home Security System", "Wireless Gaming Headset",
   "Professional Coffee Machine", "Fitness Tracker Elite", "4K Ultra HD TV",
   "Electric Standing Desk", "Bluetooth Speaker Max", "Digital Camera Pro",
   "Smart Watch Series X", "Wireless Earbuds Pro", "Smart Thermostat",
   "Gaming Desktop Ultimate", "Yoga Mat Premium", "Protein Powder"]

/-- Source list `DEFAULT_CATEGORIES`. -/
def DEFAULT_CATEGORIES : List String :=
  ["Electronics", "Home & Garden", "Health & Fitness", "Office & Business", "Entertainment"]

/-- Source list `CHANNELS`. -/
def CHANNELS : List String :=
  ["Online", "Retail", "Direct Sales", "Partner", "Wholesale"]

/-- Source `AIProductGenerator._create_fallback_mapping`. -/
def fallback_mapping : List (String × String) :=
  [("Premium Laptop Pro", "Electronics"),
   ("Smart Home Security System", "Home & Garden"),
   ("Wireless Gaming Headset", "Electronics"),
   ("Professional Coffee Machine", "Home & Garden"),
   ("Fitness Tracker Elite", "Health & Fitness"),
   ("4K Ultra HD TV", "Electronics"),
   ("Electric Standing Desk", "Office & Business"),
   ("Bluetooth Speaker Max", "Electronics"),
   ("Digital Camera Pro", "Electronics"),
   ("Smart Watch Series X", "Health & Fitness"),
   ("Wireless Earbuds Pro", "Electronics"),
   ("Smart Thermostat", "Home & Garden"),
   ("Gaming Desktop Ultimate", "Electronics"),
   ("Yoga Mat Premium", "Health & Fitness"),
   ("Protein Powder", "Health & Fitness")]

/-- Result shape of the profile generators: (products, categories,
product-to-category mapping). -/
abbrev Profile := List String × List String × List (String × String)

/-- Source `AIProductGenerator._generate_restaurant_data`. -/
def generate_restaurant_data : Profile :=
  (["Caesar Salad", "Buffalo Wings", "Mozzarella Sticks",
    "Grilled Salmon", "Prime Ribeye Steak", "Chicken Parmesan",
    "Craft Beer Selection", "Premium Wine List", "Specialty Cocktails",
    "Chocolate Lava Cake", "Tiramisu", "Seasonal Fruit Tart",
    "Chef\x27s Daily Special", "Weekend Brunch Menu", "Holiday Feast"],
   ["Appetizers", "Main Courses", "Beverages", "Desserts", "Specials"],
   [("Caesar Salad", "Appetizers"), ("Buffalo Wings", "Appetizers"),
    ("Mozzarella Sticks", "Appetizers"),
    ("Grilled Salmon", "Main Courses"), ("Prime Ribeye Steak", "Main Courses"),
    ("Chicken Parmesan", "Main Courses"),
    ("Craft Beer Selection", "Beverages"), ("Premium Wine List", "Beverages"),
    ("Specialty Cocktails", "Beverages"),
    ("Chocolate Lava Cake", "Desserts"), ("Tiramisu", "Desserts"),
    ("Seasonal Fruit Tart", "Desserts"),
    ("Chef\x27s Daily Special", "Specials"), ("Weekend Brunch Menu", "Specials"),
    ("Holiday Feast", "Specials")])

/-- Source `AIProductGenerator._generate_fitness_data`. -/
def generate_fitness_data : Profile :=
  (["Professional Treadmill", "Elliptical Trainer", "Stationary Bike",
    "Olympic Weight Set", "Power Rack System", "Adjustable Dumbbells",
    "Yoga Mat Premium", "Resistance Bands", "Foam Roller",
    "Whey Protein Powder", "Pre-Workout Formula", "Recovery Drink",
    "Athletic Shorts", "Performance T-Shirt", "Training Shoes"],
   ["Cardio Equipment", "Strength Training", "Accessories", "Supplements", "Apparel"],
   [("Professional Treadmill", "Cardio Equipment"), ("Elliptical Trainer", "Cardio Equipment"),
    ("Stationary Bike", "Cardio Equipment"),
    ("Olympic Weight Set", "Strength Training"), ("Power Rack System", "Strength Training"),
    ("Adjustable Dumbbells", "Strength Training"),
    ("Yoga Mat Premium", "Accessories"), ("Resistance Bands", "Accessories"),
    ("Foam Roller", "Accessories"),
    ("Whey Protein Powder", "Supplements"), ("Pre-Workout Formula", "Supplements"),
    ("Recovery Drink", "Supplements"),
    ("Athletic Shorts", "Apparel"), ("Performance T-Shirt", "Apparel"),
    ("Training Shoes", "Apparel")])

/-- Source `AIProductGenerator._generate_tech_data`. -/
def generate_tech_data : Profile :=
  (["Gaming Laptop Pro", "Desktop Workstation", "Ultrabook Elite",
    "Flagship Smartphone", "Tablet Pro", "Smartwatch Series",
    "4K Monitor", "Wireless Headphones", "Streaming Camera",
    "Gaming Console", "Mechanical Keyboard", "Gaming Mouse Pro",
    "Smart Thermostat", "Security Camera System", "Voice Assistant"],
   ["Computing", "Mobile Devices", "Audio/Visual", "Gaming", "Smart Home"],
   [("Gaming Laptop Pro", "Computing"), ("Desktop Workstation", "Computing"),
    ("Ultrabook Elite", "Computing"),
    ("Flagship Smartphone", "Mobile Devices"), ("Tablet Pro", "Mobile Devices"),
    ("Smartwatch Series", "Mobile Devices"),
    ("4K Monitor", "Audio/Visual"), ("Wireless Headphones", "Audio/Visual"),
    ("Streaming Camera", "Audio/Visual"),
    ("Gaming Console", "Gaming"), ("Mechanical Keyboard", "Gaming"),
    ("Gaming Mouse Pro", "Gaming"),
    ("Smart Thermostat", "Smart Home"), ("Security Camera System", "Smart Home"),
    ("Voice Assistant", "Smart Home")])

/-- Source `AIProductGenerator._generate_fashion_data`. -/
def generate_fashion_data : Profile :=
  (["Designer Jeans", "Cotton T-Shirt", "Casual Hoodie",
    "Business Suit", "Evening Dress", "Dress Shirt",
    "Running Sneakers", "Leather Boots", "Dress Shoes",
    "Designer Handbag", "Luxury Watch", "Statement Jewelry",
    "Winter Coat", "Summer Dress", "Beach Swimwear"],
   ["Casual Wear", "Formal Wear", "Footwear", "Accessories", "Seasonal"],
   [("Designer Jeans", "Casual Wear"), ("Cotton T-Shirt", "Casual Wear"),
    ("Casual Hoodie", "Casual Wear"),
    ("Business Suit", "Formal Wear"), ("Evening Dress", "Formal Wear"),
    ("Dress Shirt", "Formal Wear"),
    ("Running Sneakers", "Footwear"), ("Leather Boots", "Footwear"),
    ("Dress Shoes", "Footwear"),
    ("Designer Handbag", "Accessories"), ("Luxury Watch", "Accessories"),
    ("Statement Jewelry", "Accessories"),
    ("Winter Coat", "Seasonal"), ("Summer Dress", "Seasonal"),
    ("Beach Swimwear", "Seasonal")])

/-- Source `AIProductGenerator._generate_automotive_data`. -/
def generate_automotive_data : Profile :=
  (["Performance Air Filter", "Turbocharger Kit", "Exhaust System",
    "Carbon Fiber Hood", "LED Headlights", "Custom Wheels",
    "Leather Seat Covers", "Dashboard Kit", "Floor Mats",
    "GPS Navigation", "Backup Camera", "Sound System",
    "Motor Oil Premium", "Brake Pads", "Tire Set"],
   ["Engine Parts", "Body & Exterior", "Interior", "Electronics", "Maintenance"],
   [("Performance Air Filter", "Engine Parts"), ("Turbocharger Kit", "Engine Parts"),
    ("Exhaust System", "Engine Parts"),
    ("Carbon Fiber Hood", "Body & Exterior"), ("LED Headlights", "Body & Exterior"),
    ("Custom Wheels", "Body & Exterior"),
    ("Leather Seat Covers", "Interior"), ("Dashboard Kit", "Interior"),
    ("Floor Mats", "Interior"),
    ("GPS Navigation", "Electronics"), ("Backup Camera", "Electronics"),
    ("Sound System", "Electronics"),
    ("Motor Oil Premium", "Maintenance"), ("Brake Pads", "Maintenance"),
    ("Tire Set", "Maintenance")])

/-- Source `AIProductGenerator._generate_beauty_data`. -/
def generate_beauty_data : Profile :=
  (["Anti-Aging Serum", "Moisturizing Cream", "Cleansing Oil",
    "Foundation Premium", "Lipstick Collection", "Eyeshadow Palette",
    "Shampoo & Conditioner", "Hair Styling Cream", "Hair Dryer Pro",
    "Luxury Perfume", "Body Spray", "Scented Candle",
    "Makeup Brush Set", "Beauty Blender", "LED Mirror"],
   ["Skincare", "Makeup", "Haircare", "Fragrance", "Tools"],
   [("Anti-Aging Serum", "Skincare"), ("Moisturizing Cream", "Skincare"),
    ("Cleansing Oil", "Skincare"),
    ("Foundation Premium", "Makeup"), ("Lipstick Collection", "Makeup"),
    ("Eyeshadow Palette", "Makeup"),
    ("Shampoo & Conditioner", "Haircare"), ("Hair Styling Cream", "Haircare"),
    ("Hair Dryer Pro", "Haircare"),
    ("Luxury Perfume", "Fragrance"), ("Body Spray", "Fragrance"),
    ("Scented Candle", "Fragrance"),
    ("Makeup Brush Set", "Tools"), ("Beauty Blender", "Tools"),
    ("LED Mirror", "Tools")])

/-- Source `AIProductGenerator._generate_home_data`. -/
def generate_home_data : Profile :=
  (["Leather Sofa Set", "Dining Table Oak", "Office Chair Ergonomic",
    "Wall Art Canvas", "Table Lamp Modern", "Decorative Vase",
    "Stainless Steel Cookware", "Coffee Machine Pro", "Blender High-Speed",
    "Garden Tool Set", "Outdoor Furniture", "Plant Collection",
    "Storage Bins", "Closet Organizer", "Garage Shelving"],
   ["Furniture", "Decor", "Kitchen", "Garden", "Storage"],
   [("Leather Sofa Set", "Furniture"), ("Dining Table Oak", "Furniture"),
    ("Office Chair Ergonomic", "Furniture"),
    ("Wall Art Canvas", "Decor"), ("Table Lamp Modern", "Decor"),
    ("Decorative Vase", "Decor"),
    ("Stainless Steel Cookware", "Kitchen"), ("Coffee Machine Pro", "Kitchen"),
    ("Blender High-Speed", "Kitchen"),
    ("Garden Tool Set", "Garden"), ("Outdoor Furniture", "Garden"),
    ("Plant Collection", "Garden"),
    ("Storage Bins", "Storage"), ("Closet Organizer", "Storage"),
    ("Garage Shelving", "Storage")])

/-- Source `AIProductGenerator._generate_generic_data`. -/
def generate_generic_data : Profile :=
  (DEFAULT_PRODUCTS, DEFAULT_CATEGORIES, fallback_mapping)

/-- Source `AIProductGenerator._generate_smart_fallback`: lower-case the
input, then walk the if/elif chain of keyword tests (substring containment,
any keyword of the group), returning the first matching profile, and the
generic profile when nothing matches. -/
def generate_smart_fallback (business_type : String) : Profile :=
  let bl := pyLower business_type
  if (["restaurant", "food", "cafe", "dining", "kitchen"].any
      (fun kw => isSubstrB (strCodes kw) bl)) then generate_restaurant_data
  else if (["fitness", "gym", "health", "wellness", "sport"].any
      (fun kw => isSubstrB (strCodes kw) bl)) then generate_fitness_data
  else if (["tech", "software", "electronics", "computer", "digital"].any
      (fun kw => isSubstrB (strCodes kw) bl)) then generate_tech_data
  else if (["clothing", "fashion", "apparel", "retail", "boutique"].any
      (fun kw => isSubstrB (strCodes kw) bl)) then generate_fashion_data
  else if (["automotive", "car", "vehicle", "auto"].any
      (fun kw => isSubstrB (strCodes kw) bl)) then generate_automotive_data
  else if (["beauty", "cosmetic", "skincare", "salon"].any
      (fun kw => isSubstrB (strCodes kw) bl)) then generate_beauty_data
  else if (["home", "furniture", "decor", "garden"].any
      (fun kw => isSubstrB (strCodes kw) bl)) then generate_home_data
  else generate_generic_data

/-- Spec-side reformulation of the classification (spec sections 4.1 and 9):
a fixed ordered list of (tag, keyword set, profile) tuples, iterated once
with first match winning. -/
def classify_table : List (String × List String × Profile) :=
  [("restaurant", ["restaurant", "food", "cafe", "dining", "kitchen"], generate_restaurant_data),
   ("fitness", ["fitness", "gym", "health", "wellness", "sport"], generate_fitness_data),
   ("tech", ["tech", "software", "electronics", "computer", "digital"], generate_tech_data),
   ("fashion", ["clothing", "fashion", "apparel", "retail", "boutique"], generate_fashion_data),
   ("automotive", ["automotive", "car", "vehicle", "auto"], generate_automotive_data),
   ("beauty", ["beauty", "cosmetic", "skincare", "salon"], generate_beauty_data),
   ("home", ["home", "furniture", "decor", "garden"], generate_home_data)]

/-- Spec-side classification: first table entry one of whose keywords is
contained in the lowercased input; generic profile when none matches. -/
def classifySpec (business_type : String) : Profile :=
  match classify_table.find?
      (fun e => e.2.1.any (fun kw => isSubstrB (strCodes kw) (pyLower business_type))) with
  | some e => e.2.2
  | none => generate_generic_data

/-- Every keyword of every tag of the classification, in test order. -/
def allKeywords : List String :=
  (classify_table.map (fun e => e.2.1)).flatten

/-- Source dict `base_ranges` in `SampleDataGenerator._generate_budget`,
in insertion order. -/
def base_ranges : List (String × ℤ × ℤ) :=
  [("restaurant", 5000, 50000),
   ("fitness", 10000, 80000),
   ("tech", 20000, 200000),
   ("fashion", 8000, 60000),
   ("automotive", 15000, 150000),
   ("beauty", 5000, 40000),
   ("home", 10000, 100000),
   ("general", 8000, 80000)]

/-- The `for key in base_ranges.keys(): if key in business_type.lower():
business_key = key; break` loop of `_generate_budget`. -/
def bkLoop (bl : List ℕ) : List String → String
  | [] => "general"
  | k :: ks => if isSubstrB (strCodes k) bl then k else bkLoop bl ks

/-- Business key selected by `_generate_budget` for a business type:
substring containment against the fixed key order, first match wins,
`"general"` when nothing matches. -/
def business_key (business_type : String) : String :=
  bkLoop (pyLower business_type) (base_ranges.map Prod.fst)

/-- Dict lookup `base_ranges[business_key]`; the default branch is dead
because `business_key` always returns a key of the table. -/
def lookupRange (k : String) : ℤ × ℤ :=
  ((base_ranges.find? (fun e => e.1 = k)).map (fun e => e.2)).getD (8000, 80000)

/-- Source list `major_states` in `_generate_budget`. -/
def major_states : List String :=
  ["California", "New York", "Texas", "Florida", "Illinois"]

/-- Source `SampleDataGenerator._generate_budget`.  Mirrors the Python
control flow: select the base range by first-match substring containment,
draw `base` with `randint`, on a major state multiply by a uniform factor
from `[1.1, 1.4]` and truncate with `int(...)` immediately, then build the
channel-multiplier dict (five uniform draws, in the dict's insertion
order) and truncate the product with the selected multiplier.  The
`KeyError` path for a channel outside the dict is unreachable from
`generate_data` (which draws channels from `CHANNELS`); it is modelled by
the `getD` default. -/
def generate_budget (product category state channel business_type : String)
    (g : RNG) : ℤ × RNG :=
  let bk := business_key business_type
  let r := lookupRange bk
  let (base, g) := randint r.1 r.2 g
  let (b1, g) :=
    if major_states.contains state then
      let (u, g) := uniformF ⟨11, 10⟩ ⟨14, 10⟩ g
      (pyInt (PyF.mul (PyF.ofInt base) u), g)
    else (base, g)
  let (mOnline, g) := uniformF ⟨8, 10⟩ ⟨12, 10⟩ g
  let (mRetail, g) := uniformF ⟨9, 10⟩ ⟨11, 10⟩ g
  let (mDirect, g) := uniformF ⟨11, 10⟩ ⟨14, 10⟩ g
  let (mPartner, g) := uniformF ⟨7, 10⟩ ⟨1, 1⟩ g
  let (mWholesale, g) := uniformF ⟨6, 10⟩ ⟨9, 10⟩ g
  let mults := [("Online", mOnline), ("Retail", mRetail), ("Direct Sales", mDirect),
                ("Partner", mPartner), ("Wholesale", mWholesale)]
  let m := ((mults.find? (fun e => e.1 = channel)).map (fun e => e.2)).getD ⟨0, 1⟩
  (pyInt (PyF.mul (PyF.ofInt b1) m), g)

/-- Source `SampleDataGenerator._generate_actuals`: multiply the budget by
a uniform factor from `[0.75, 1.4]` and truncate with `int(...)`. -/
def generate_actuals (budget : ℤ) (g : RNG) : ℤ × RNG :=
  let (v, g) := uniformF ⟨75, 100⟩ ⟨14, 10⟩ g
  (pyInt (PyF.mul (PyF.ofInt budget) v), g)

/-- One row of the generated dataset.  `date` is the day ordinal of the
record's date (the `strftime`-formatted ISO string of the source orders
identically). -/
structure Record where
  date : ℤ
  product : String
  category : String
  state : String
  city : String
  budget : ℤ
  actuals : ℤ
  channel : String
deriving DecidableEq

/-- Model of `product_mapping.get(product, 'General')`. -/
def categoryOf (product_mapping : List (String × String)) (product : String) : String :=
  ((product_mapping.find? (fun e => e.1 = product)).map (fun e => e.2)).getD "General"

/-- One iteration of the generation loop in
`SampleDataGenerator.generate_data`: the draws happen in the source's
order (date offset, state, city, product, channel, budget draws, actuals
draw). -/
def generate_record (startOrd days_diff : ℤ) (products : List String)
    (product_mapping : List (String × String)) (business_type : String)
    (g : RNG) : Record × RNG :=
  let (random_days, g) := randint 0 days_diff g
  let record_date := startOrd + random_days
  let (state, g) := pychoice (STATES_CITIES.map Prod.fst) g
  let (city, g) := pychoice
      (((STATES_CITIES.find? (fun e => e.1 = state)).map (fun e => e.2)).getD []) g
  let (product, g) := pychoice products g
  let category := categoryOf product_mapping product
  let (channel, g) := pychoice CHANNELS g
  let (budget, g) := generate_budget product category state channel business_type g
  let (actuals, g) := generate_actuals budget g
  ({date := record_date, product := product, category := category, state := state,
    city := city, budget := budget, actuals := actuals, channel := channel}, g)

/-- The generation loop: `row_count` records in generation order. -/
def generate_rows (startOrd days_diff : ℤ) (products : List String)
    (product_mapping : List (String × String)) (business_type : String) :
    ℕ → RNG → List Record × RNG
  | 0, g => ([], g)
  | Nat.succ k, g =>
    let (r, g) := generate_record startOrd days_diff products product_mapping business_type g
    let (rs, g) := generate_rows startOrd days_diff products product_mapping business_type k g
    (r :: rs, g)

/-- Insert a record into a date-sorted list, after all records with an
earlier-or-equal date. -/
def insertByDate (r : Record) : List Record → List Record
  | [] => [r]
  | x :: xs => if r.date < x.date then r :: x :: xs else x :: insertByDate r xs

/-- Model of `df.sort_values('Date')`: a deterministic ascending sort by
date.  This embedding is stable in the generation order; the source's
pandas default quicksort gives no such guarantee for equal dates, and its
tie order is not modelled here (none of the theorems below depends on the
tie order). -/
def sortByDate (l : List Record) : List Record :=
  l.foldl (fun acc r => insertByDate r acc) []

/-- Source `SampleDataGenerator.generate_data` after date parsing: reject
`start_dt >= end_dt` with the source's `ValueError` message, otherwise
build `row_count` records and hand back the date-sorted dataset together
with the final ambient generator state.  Writing the CSV file is outside
the modelled core. -/
def generate_data (startOrd endOrd : ℤ) (row_count : ℕ) (products : List String)
    (product_mapping : List (String × String)) (business_type : String)
    (g : RNG) : Except String (List Record × RNG) :=
  if startOrd ≥ endOrd then .error "Start date must be before end date"
  else
    let (rows, g) := generate_rows startOrd (endOrd - startOrd) products
        product_mapping business_type row_count g
    .ok (sortByDate rows, g)

/-- Model of `SampleDataGenerator.__init__`: it calls `random.seed(42)` on
the ambient generator (the hard-coded seed of the source), discarding
whatever state the module held. -/
def generatorInit (g : RNG) : RNG := seedGen 42 g

/-- Day ordinal of a proleptic-Gregorian civil date (valid for year >= 1;
used only to turn the concrete `YYYY-MM-DD` literals of the spec's
examples into ordinals). -/
def daysFromCivil (y m d : ℕ) : ℕ :=
  let y2 := if m ≤ 2 then y - 1 else y
  let era := y2 / 400
  let yoe := y2 - era * 400
  let mp := (m + 9) % 12
  let doy := (153 * mp + 2) / 5 + d - 1
  let doe := yoe * 365 + yoe / 4 - yoe / 100 + doy
  era * 146097 + doe

/-- Pandas/numpy float value as produced by the ranker's percentage
division: `NaN`, `±Inf`, or an exact rational. -/
inductive PFloat where
  | nan : PFloat
  | pinf : PFloat
  | ninf : PFloat
  | val : ℚ → PFloat
deriving DecidableEq

/-- The ranker's `(actuals / total_actuals) * 100` in pandas float
semantics: division by a zero total yields `NaN` for a zero numerator and
`±Inf` otherwise (numpy emits a warning, not an exception); otherwise the
exact rational value. -/
def pdivPct (t T : ℤ) : PFloat :=
  if T = 0 then
    if t = 0 then .nan else if 0 < t then .pinf else .ninf
  else .val (((t : ℚ) / (T : ℚ)) * 100)

/-- Source `total_actuals = grouped_df['Actuals'].sum()` over a period
partition given as (product, aggregated actuals) rows. -/
def period_total (p : List (String × ℤ)) : ℤ := (p.map Prod.snd).sum

/-- Source `grouped_df['Percentage'] = (grouped_df['Actuals'] /
total_actuals) * 100`: the percentage column of a period partition. -/
def percentages (p : List (String × ℤ)) : List PFloat :=
  p.map (fun r => pdivPct r.2 (period_total p))

/-- First element attaining the maximum of `f`, starting from `x`: the
model of `Series.idxmax` followed by `.loc` (pandas' `idxmax` returns the
first occurrence of the maximum). -/
def firstMaxBy {α : Type} (f : α → ℤ) : α → List α → α
  | x, [] => x
  | x, a :: t => firstMaxBy f (if f x < f a then a else x) t

/-- First element attaining the minimum of `f` (model of `idxmin`). -/
def firstMinBy {α : Type} (f : α → ℤ) : α → List α → α
  | x, [] => x
  | x, a :: t => firstMinBy f (if f a < f x then a else x) t

/-- Source `get_top_bottom_products`: given a period partition (one row
per product with its aggregated actuals, in the grouped frame's order),
return the top row, the bottom row, and their percentage shares.  The
empty partition (on which `idxmax` would raise) is unreachable — every
period iterated over contains at least one row. -/
def get_top_bottom_products (grouped : List (String × ℤ)) :
    Option ((String × ℤ) × (String × ℤ) × PFloat × PFloat) :=
  match grouped with
  | [] => none
  | x :: xs =>
    let T := period_total (x :: xs)
    let top := firstMaxBy Prod.snd x xs
    let bot := firstMinBy Prod.snd x xs
    some (top, bot, pdivPct top.2 T, pdivPct bot.2 T)

/-- Keep-first deduplication (the distinct keys of a pandas groupby). -/
def dedupKeep {α : Type} [DecidableEq α] (seen : List α) : List α → List α
  | [] => []
  | x :: xs => if seen.contains x then dedupKeep seen xs else x :: dedupKeep (x :: seen) xs

/-- Insert into an ascending list w.r.t. the strict order `lt`. -/
def insBy {α : Type} (lt : α → α → Bool) (s : α) : List α → List α
  | [] => [s]
  | x :: xs => if lt s x then s :: x :: xs else x :: insBy lt s xs

/-- Insertion sort w.r.t. the strict order `lt` (pandas groupby sorts its
group keys ascending). -/
def insortBy {α : Type} (lt : α → α → Bool) : List α → List α
  | [] => []
  | x :: xs => insBy lt x (insortBy lt xs)

/-- Strict lexicographic order on code-point lists. -/
def lexLtCodes : List ℕ → List ℕ → Bool
  | [], [] => false
  | [], _ :: _ => true
  | _ :: _, [] => false
  | a :: as, b :: bs => if a < b then true else if b < a then false else lexLtCodes as bs

/-- Python string `<` (code-point lexicographic), the order pandas uses to
sort object group keys. -/
def strLt (a b : String) : Bool := lexLtCodes (strCodes a) (strCodes b)

/-- Model of `df.groupby([period, 'Product']).agg({'Actuals': 'sum'})`
restricted to one period: one row per distinct product, keys sorted
ascending, each with the sum of its actuals. -/
def groupSum (rows : List (String × ℤ)) : List (String × ℤ) :=
  let keys := insortBy strLt (dedupKeep [] (rows.map Prod.fst))
  keys.map (fun k => (k, ((rows.filter (fun r => r.1 = k)).map Prod.snd).sum))

/-- Addition of pandas float values (`NaN` propagates, opposite infinities
give `NaN`). -/
def pAdd : PFloat → PFloat → PFloat
  | .nan, _ => .nan
  | _, .nan => .nan
  | .pinf, .ninf => .nan
  | .ninf, .pinf => .nan
  | .pinf, _ => .pinf
  | _, .pinf => .pinf
  | .ninf, _ => .ninf
  | _, .ninf => .ninf
  | .val a, .val b => .val (a + b)

/-- Sum of a list of pandas float values. -/
def pfSum (l : List PFloat) : PFloat := l.foldl pAdd (.val 0)

/-- Identity draw oracle used for the C3 counterexample. -/
def natsId : ℕ → ℕ → ℕ := fun _ i => i

/-- Zero unit-draw oracle used for the C3 counterexample. -/
def unitsZ : ℕ → ℕ → PyF := fun _ _ => ⟨0, 1⟩

/-- Ambient generator state right after `SampleDataGenerator.__init__`
(seed 42, position 0) under the counterexample oracles. -/
def gEx : RNG := generatorInit ⟨natsId, unitsZ, 0, 0⟩

/-- Ambient generator state after the first one-row generation run: same
streams and seed, 12 draws consumed. -/
def gMid : RNG := ⟨natsId, unitsZ, 42, 12⟩

/-- Record produced by the first run of the C3 counterexample. -/
def recEx1 : Record := ⟨0, "P", "C", "Alaska", "Juneau", 4803, 3602, "Wholesale"⟩

/-- Record produced by the second run of the C3 counterexample. -/
def recEx2 : Record := ⟨0, "P", "C", "Indiana", "Evansville", 7215, 5411, "Retail"⟩

/-- All-zero generator state used by concrete witnesses. -/
def gZero : RNG := ⟨fun _ _ => 0, fun _ _ => ⟨0, 1⟩, 42, 0⟩

/-- Budget as the claim (and spec section 4.2 step 5) words it: the drawn
base times the optional major-state factor times the channel factor, with
a single truncation at the end of the multiplicative composition. -/
def budget_single_trunc (base : ℤ) (maj : Bool) (u1 uc : PyF) : ℤ :=
  pyInt (PyF.mul (PyF.mul (PyF.ofInt base) (if maj then u1 else ⟨1, 1⟩)) uc)

/-- Constant-9 draw oracle used for the C6 counterexample. -/
def natsNine : ℕ → ℕ → ℕ := fun _ _ => 9

/-- Unit-draw oracle for the C6 counterexample: 0 at the major-state draw,
1 everywhere else. -/
def unitsC6 : ℕ → ℕ → PyF := fun _ i => if i = 1 then ⟨0, 1⟩ else ⟨1, 1⟩

/-- Generator state for the C6 counterexample. -/
def gC6 : RNG := ⟨natsNine, unitsC6, 42, 0⟩

theorem firstMaxBy_mem {α : Type} (f : α → ℤ) (x : α) (xs : List α) :
    firstMaxBy f x xs ∈ x :: xs := by
  induction xs generalizing x with
  | nil => simp [firstMaxBy]
  | cons a t ih =>
    rw [firstMaxBy]
    rcases List.mem_cons.1 (ih (if f x < f a then a else x)) with h | h
    · rw [h]; split
      · exact List.mem_cons_of_mem _ (List.mem_cons_self _ _)
      · exact List.mem_cons_self _ _
    · exact List.mem_cons_of_mem _ (List.mem_cons_of_mem _ h)

theorem le_firstMaxBy {α : Type} (f : α → ℤ) (x : α) (xs : List α) :
    ∀ y ∈ x :: xs, f y ≤ f (firstMaxBy f x xs) := by
  induction xs generalizing x with
  | nil => intro y hy; rw [List.mem_singleton] at hy; rw [hy]; simp [firstMaxBy]
  | cons a t ih =>
    intro y hy
    rw [firstMaxBy]
    have hx : f x ≤ f (if f x < f a then a else x) := by
      split
      · exact le_of_lt (by assumption)
      · exact le_refl _
    have ha : f a ≤ f (if f x < f a then a else x) := by
      split
      · exact le_refl _
      · exact le_of_not_lt (by assumption)
    have hhead := ih (if f x < f a then a else x) _ (List.mem_cons_self _ _)
    rcases List.mem_cons.1 hy with rfl | hy2
    · exact le_trans hx hhead
    · rcases List.mem_cons.1 hy2 with rfl | hy3
      · exact le_trans ha hhead
      · exact ih _ y (List.mem_cons_of_mem _ hy3)

theorem firstMaxBy_first {α : Type} (f : α → ℤ) (x : α) (xs : List α) :
    ∃ l1 l2, x :: xs = l1 ++ firstMaxBy f x xs :: l2 ∧
      ∀ y ∈ l1, f y < f (firstMaxBy f x xs) := by
  induction xs generalizing x with
  | nil => exact ⟨[], [], by simp [firstMaxBy], by simp⟩
  | cons a t ih =>
    rw [firstMaxBy]
    by_cases hxa : f x < f a
    · rw [if_pos hxa]
      obtain ⟨l1, l2, hdec, hlt⟩ := ih a
      refine ⟨x :: l1, l2, by rw [List.cons_append, ← hdec], ?_⟩
      intro y hy
      rcases List.mem_cons.1 hy with rfl | hy2
      · exact lt_of_lt_of_le hxa (le_firstMaxBy f a t a (List.mem_cons_self _ _))
      · exact hlt y hy2
    · rw [if_neg hxa]
      obtain ⟨l1, l2, hdec, hlt⟩ := ih x
      cases l1 with
      | nil =>
        simp only [List.nil_append] at hdec
        obtain ⟨hx, ht⟩ := List.cons.injEq _ _ _ _ ▸ hdec
        refine ⟨[], a :: t, ?_, by simp⟩
        rw [List.nil_append, ← hx]
      | cons b l1x =>
        rw [List.cons_append] at hdec
        obtain ⟨hb, ht⟩ := List.cons.injEq _ _ _ _ ▸ hdec
        refine ⟨x :: a :: l1x, l2, ?_, ?_⟩
        · rw [List.cons_append, List.cons_append, ← ht]
        · intro y hy
          have hxlt : f x < f (firstMaxBy f x t) := by
            rw [← hb] at hlt
            exact hlt x (List.mem_cons_self _ _)
          rcases List.mem_cons.1 hy with rfl | hy2
          · exact hxlt
          · rcases List.mem_cons.1 hy2 with rfl | hy3
            · exact lt_of_le_of_lt (le_of_not_lt hxa) hxlt
            · exact hlt y (List.mem_cons_of_mem _ hy3)

theorem firstMinBy_mem {α : Type} (f : α → ℤ) (x : α) (xs : List α) :
    firstMinBy f x xs ∈ x :: xs := by
  induction xs generalizing x with
  | nil => simp [firstMinBy]
  | cons a t ih =>
    rw [firstMinBy]
    rcases List.mem_cons.1 (ih (if f a < f x then a else x)) with h | h
    · rw [h]; split
      · exact List.mem_cons_of_mem _ (List.mem_cons_self _ _)
      · exact List.mem_cons_self _ _
    · exact List.mem_cons_of_mem _ (List.mem_cons_of_mem _ h)

theorem firstMinBy_le {α : Type} (f : α → ℤ) (x : α) (xs : List α) :
    ∀ y ∈ x :: xs, f (firstMinBy f x xs) ≤ f y := by
  induction xs generalizing x with
  | nil => intro y hy; rw [List.mem_singleton] at hy; rw [hy]; simp [firstMinBy]
  | cons a t ih =>
    intro y hy
    rw [firstMinBy]
    have hx : f (if f a < f x then a else x) ≤ f x := by
      split
      · exact le_of_lt (by assumption)
      · exact le_refl _
    have ha : f (if f a < f x then a else x) ≤ f a := by
      split
      · exact le_refl _
      · exact le_of_not_lt (by assumption)
    have hhead := ih (if f a < f x then a else x) _ (List.mem_cons_self _ _)
    rcases List.mem_cons.1 hy with rfl | hy2
    · exact le_trans hhead hx
    · rcases List.mem_cons.1 hy2 with rfl | hy3
      · exact le_trans hhead ha
      · exact ih _ y (List.mem_cons_of_mem _ hy3)

theorem firstMinBy_first {α : Type} (f : α → ℤ) (x : α) (xs : List α) :
    ∃ l1 l2, x :: xs = l1 ++ firstMinBy f x xs :: l2 ∧
      ∀ y ∈ l1, f (firstMinBy f x xs) < f y := by
  induction xs generalizing x with
  | nil => exact ⟨[], [], by simp [firstMinBy], by simp⟩
  | cons a t ih =>
    rw [firstMinBy]
    by_cases hxa : f a < f x
    · rw [if_pos hxa]
      obtain ⟨l1, l2, hdec, hlt⟩ := ih a
      refine ⟨x :: l1, l2, by rw [List.cons_append, ← hdec], ?_⟩
      intro y hy
      rcases List.mem_cons.1 hy with rfl | hy2
      · exact lt_of_le_of_lt (firstMinBy_le f a t a (List.mem_cons_self _ _)) hxa
      · exact hlt y hy2
    · rw [if_neg hxa]
      obtain ⟨l1, l2, hdec, hlt⟩ := ih x
      cases l1 with
      | nil =>
        simp only [List.nil_append] at hdec
        obtain ⟨hx, ht⟩ := List.cons.injEq _ _ _ _ ▸ hdec
        refine ⟨[], a :: t, ?_, by simp⟩
        rw [List.nil_append, ← hx]
      | cons b l1x =>
        rw [List.cons_append] at hdec
        obtain ⟨hb, ht⟩ := List.cons.injEq _ _ _ _ ▸ hdec
        refine ⟨x :: a :: l1x, l2, ?_, ?_⟩
        · rw [List.cons_append, List.cons_append, ← ht]
        · intro y hy
          have hxlt : f (firstMinBy f x t) < f x := by
            rw [← hb] at hlt
            exact hlt x (List.mem_cons_self _ _)
          rcases List.mem_cons.1 hy with rfl | hy2
          · exact hxlt
          · rcases List.mem_cons.1 hy2 with rfl | hy3
            · exact lt_of_lt_of_le hxlt (le_of_not_lt hxa)
            · exact hlt y (List.mem_cons_of_mem _ hy3)

theorem find?_of_decomp {α : Type} (p : α → Bool) (l1 l2 : List α) (m : α)
    (h1 : ∀ y ∈ l1, p y = false) (h2 : p m = true) :
    (l1 ++ m :: l2).find? p = some m := by
  induction l1 with
  | nil => rw [List.nil_append, List.find?_cons, h2]
  | cons b t ih =>
    rw [List.cons_append, List.find?_cons, h1 b (List.mem_cons_self _ _)]
    exact ih (fun y hy => h1 y (List.mem_cons_of_mem _ hy))

theorem insBy_ne_nil {α : Type} (lt : α → α → Bool) (s : α) (l : List α) :
    insBy lt s l ≠ [] := by
  cases l with
  | nil => simp [insBy]
  | cons x xs => rw [insBy]; split <;> simp

theorem groupSum_ne_nil (rows : List (String × ℤ)) (h : rows ≠ []) :
    groupSum rows ≠ [] := by
  obtain ⟨r, rs, rfl⟩ := List.exists_cons_of_ne_nil h
  rw [groupSum]
  have hkeys : insortBy strLt (dedupKeep [] ((r :: rs).map Prod.fst)) ≠ [] := by
    simp only [List.map_cons]
    rw [dedupKeep]
    simp only [List.contains_nil, Bool.false_eq_true, if_false]
    rw [insortBy]
    exact insBy_ne_nil _ _ _
  intro hc
  exact hkeys (List.map_eq_nil_iff.mp hc)

theorem pfSum_vals (l : List ℚ) : ∀ s : ℚ,
    (l.map PFloat.val).foldl pAdd (.val s) = .val (s + l.sum) := by
  induction l with
  | nil => intro s; simp [List.foldl]
  | cons q t ih =>
    intro s
    simp only [List.map_cons, List.foldl_cons, pAdd]
    rw [ih (s + q), List.sum_cons]
    congr 1
    ring

theorem sum_map_div_mul (l : List ℚ) (T c : ℚ) :
    (l.map (fun q => q / T * c)).sum = l.sum / T * c := by
  induction l with
  | nil => simp
  | cons q t ih => simp [ih, add_div, add_mul]

theorem period_total_cast (p : List (String × ℤ)) :
    (p.map (fun r => ((r.2 : ℤ) : ℚ))).sum = ((period_total p : ℤ) : ℚ) := by
  rw [period_total, Int.cast_list_sum, List.map_map]
  rfl

/-- C1 counterexample: in a period whose total is 0 (one product, zero
actuals — also a fixed point of the grouping step), the computed share is
`NaN`, not 0: the claim's `period_total == 0` clause fails on the code,
which divides unguarded. -/
theorem C1_share_zero_total_counterexample :
    groupSum [("A", 0)] = [("A", 0)] ∧
    period_total [("A", 0)] = 0 ∧
    get_top_bottom_products [("A", 0)] =
      some (("A", 0), ("A", 0), PFloat.nan, PFloat.nan) ∧
    percentages [("A", 0)] ≠ [PFloat.val 0] := by decide

/-- C1 (amended): for every period partition, when `period_total` is
nonzero every product's share is exactly `100 * total_actuals /
period_total`; when `period_total` is 0 the computed shares are `NaN`
(zero actuals) or `±Inf` (nonzero actuals) — undefined float values, never
the claimed 0. -/
theorem C1_share_pct_amended (p : List (String × ℤ)) :
    (period_total p ≠ 0 →
      percentages p = p.map (fun r =>
        PFloat.val (((r.2 : ℚ) / ((period_total p : ℤ) : ℚ)) * 100))) ∧
    (period_total p = 0 →
      percentages p = p.map (fun r =>
        if r.2 = 0 then PFloat.nan else if 0 < r.2 then PFloat.pinf else PFloat.ninf)) := by
  constructor
  · intro h
    unfold percentages
    exact List.map_congr_left (fun r _ => by simp [pdivPct, h])
  · intro h
    unfold percentages
    exact List.map_congr_left (fun r _ => by simp [pdivPct, h])

/-- Witness for C1 (amended) at the concrete partition `[A: 1, B: 3]`. -/
theorem C1_share_pct_amended_witness :
    period_total [("A", 1), ("B", 3)] ≠ 0 ∧
    percentages [("A", 1), ("B", 3)] =
      [(("A" : String), (1 : ℤ)), ("B", 3)].map (fun r =>
        PFloat.val (((r.2 : ℚ) / ((period_total [("A", 1), ("B", 3)] : ℤ) : ℚ)) * 100)) :=
  ⟨by decide, (C1_share_pct_amended [("A", 1), ("B", 3)]).1 (by decide)⟩

/-- C9: in every period partition with a strictly positive total, the
shares (exact rationals in this embedding) sum to exactly 100. -/
theorem C9_share_sum_100 (p : List (String × ℤ)) (h : 0 < period_total p) :
    pfSum (percentages p) = PFloat.val 100 := by
  have hT : period_total p ≠ 0 := h.ne'
  have hTQ : ((period_total p : ℤ) : ℚ) ≠ 0 := Int.cast_ne_zero.mpr hT
  have hperc : percentages p =
      ((p.map (fun r => ((r.2 : ℤ) : ℚ))).map
        (fun q => q / ((period_total p : ℤ) : ℚ) * 100)).map PFloat.val := by
    rw [List.map_map, List.map_map]
    unfold percentages
    exact List.map_congr_left (fun r _ => by simp [pdivPct, hT])
  rw [hperc]
  unfold pfSum
  rw [pfSum_vals, sum_map_div_mul, period_total_cast, div_self hTQ]
  norm_num

/-- Witness for C9 at the spec's example partition `[A: 150, B: 30]`. -/
theorem C9_share_sum_100_witness :
    0 < period_total [("A", 150), ("B", 30)] ∧
    pfSum (percentages [("A", 150), ("B", 30)]) = PFloat.val 100 :=
  ⟨by decide, C9_share_sum_100 [("A", 150), ("B", 30)] (by decide)⟩

/-- C2: for every nonempty period record list, `get_top_bottom_products`
on the grouped partition yields a top row whose aggregated actuals bound
every product's from above, a bottom row bounding from below (hence top
at least bottom), and on ties each is the first row of the partition's
grouped iteration order attaining the extremum (the `find?` equations). -/
theorem C2_top_bottom_bounds (rows : List (String × ℤ)) (h : rows ≠ []) :
    (get_top_bottom_products (groupSum rows)).isSome = true ∧
    ∀ top bot tpct bpct,
      get_top_bottom_products (groupSum rows) = some (top, bot, tpct, bpct) →
      (∀ x ∈ groupSum rows, x.2 ≤ top.2) ∧
      (∀ x ∈ groupSum rows, bot.2 ≤ x.2) ∧
      bot.2 ≤ top.2 ∧
      (groupSum rows).find? (fun x => decide (top.2 ≤ x.2)) = some top ∧
      (groupSum rows).find? (fun x => decide (x.2 ≤ bot.2)) = some bot := by
  obtain ⟨y, ys, hys⟩ := List.exists_cons_of_ne_nil (groupSum_ne_nil rows h)
  rw [hys]
  refine ⟨rfl, ?_⟩
  intro top bot tpct bpct heq
  rw [get_top_bottom_products] at heq
  simp only [Option.some.injEq, Prod.mk.injEq] at heq
  obtain ⟨htop, hbot, -, -⟩ := heq
  subst htop
  subst hbot
  refine ⟨le_firstMaxBy Prod.snd y ys, firstMinBy_le Prod.snd y ys,
    le_firstMaxBy Prod.snd y ys _ (firstMinBy_mem Prod.snd y ys), ?_, ?_⟩
  · obtain ⟨l1, l2, hdec, hlt⟩ := firstMaxBy_first Prod.snd y ys
    rw [hdec]
    exact find?_of_decomp _ l1 l2 _
      (fun z hz => decide_eq_false (not_le.mpr (hlt z hz))) (decide_eq_true le_rfl)
  · obtain ⟨l1, l2, hdec, hlt⟩ := firstMinBy_first Prod.snd y ys
    rw [hdec]
    exact find?_of_decomp _ l1 l2 _
      (fun z hz => decide_eq_false (not_le.mpr (hlt z hz))) (decide_eq_true le_rfl)

/-- Witness for C2 at the spec's example period `A: 100, A: 50, B: 30`. -/
theorem C2_top_bottom_bounds_witness :
    ([("A", 100), ("A", 50), ("B", 30)] : List (String × ℤ)) ≠ [] ∧
    ((get_top_bottom_products (groupSum [("A", 100), ("A", 50), ("B", 30)])).isSome = true ∧
     ∀ top bot tpct bpct,
       get_top_bottom_products (groupSum [("A", 100), ("A", 50), ("B", 30)]) =
         some (top, bot, tpct, bpct) →
       (∀ x ∈ groupSum [("A", 100), ("A", 50), ("B", 30)], x.2 ≤ top.2) ∧
       (∀ x ∈ groupSum [("A", 100), ("A", 50), ("B", 30)], bot.2 ≤ x.2) ∧
       bot.2 ≤ top.2 ∧
       (groupSum [("A", 100), ("A", 50), ("B", 30)]).find?
         (fun x => decide (top.2 ≤ x.2)) = some top ∧
       (groupSum [("A", 100), ("A", 50), ("B", 30)]).find?
         (fun x => decide (x.2 ≤ bot.2)) = some bot) :=
  ⟨by decide, C2_top_bottom_bounds [("A", 100), ("A", 50), ("B", 30)] (by decide)⟩

/-- C3 counterexample: two `generate_data` runs with identical
(products, dates, row count, business key) — and the only seed the code
ever sets, the hard-coded 42 of `__init__` — produce different Datasets
when the second run starts from the ambient generator state the first run
left behind (exactly what happens for two `generate_data` calls on one
`SampleDataGenerator`).  The output is a function of the process-wide
generator state, not of the parameters plus a per-run seed, refuting the
claim's mechanism: the random source is ambient and global, not an
explicitly owned generator threaded per run. -/
theorem C3_global_rng_counterexample :
    (generate_data 0 1 1 ["P"] [("P", "C")] "general" gEx).map (fun pr => pr.1) =
      .ok [recEx1] ∧
    (generate_data 0 1 1 ["P"] [("P", "C")] "general" gEx).map
      (fun pr => (pr.2.seed, pr.2.idx)) = .ok (42, 12) ∧
    (generate_data 0 1 1 ["P"] [("P", "C")] "general" gMid).map (fun pr => pr.1) =
      .ok [recEx2] ∧
    [recEx1] ≠ [recEx2] := by decide

/-- C3 (amended): runs that each begin with `SampleDataGenerator.__init__`
are reproducible — `__init__` reseeds the ambient generator with the
constant 42, so whatever seed and position the process-wide state held
before, two such runs with identical parameters produce element-for-element
identical Datasets.  The mechanism differs from the claim: the source is
the global `random` module reseeded with a hard-coded constant, not an
explicitly owned per-run generator, and there is no seed parameter. -/
theorem C3_reproducibility_amended (nats : ℕ → ℕ → ℕ) (units : ℕ → ℕ → PyF)
    (s1 i1 s2 i2 : ℕ) (startOrd endOrd : ℤ) (rc : ℕ) (products : List String)
    (mapping : List (String × String)) (bt : String) :
    generate_data startOrd endOrd rc products mapping bt
      (generatorInit ⟨nats, units, s1, i1⟩) =
    generate_data startOrd endOrd rc products mapping bt
      (generatorInit ⟨nats, units, s2, i2⟩) := rfl

/-- C5: for start not strictly before end, `generate_data` fails
immediately with the source's `ValueError` — the error branch is taken
before the generation loop, so no record is built and no partial Dataset
is handed back. -/
theorem C5_invalid_range (startOrd endOrd : ℤ) (rc : ℕ) (products : List String)
    (mapping : List (String × String)) (bt : String) (g : RNG)
    (h : startOrd ≥ endOrd) :
    generate_data startOrd endOrd rc products mapping bt g =
      .error "Start date must be before end date" := by
  unfold generate_data
  rw [if_pos h]

/-- Witness for C5 at the spec's example: start 2024-02-01, end
2024-01-01. -/
theorem C5_invalid_range_witness :
    ((daysFromCivil 2024 2 1 : ℤ) ≥ (daysFromCivil 2024 1 1 : ℤ)) ∧
    generate_data (daysFromCivil 2024 2 1) (daysFromCivil 2024 1 1) 10
      DEFAULT_PRODUCTS fallback_mapping "general" gZero =
      .error "Start date must be before end date" :=
  ⟨by decide, C5_invalid_range _ _ _ _ _ _ _ (by decide)⟩

/-- C10: record synthesis never fails on a product outside the mapping —
the record is produced with category `"General"` when the drawn product is
not a key of the mapping, and with the mapped category otherwise (so the
category invariant holds exactly when the mapping covers the product). -/
theorem C10_category_default (startOrd days_diff : ℤ) (products : List String)
    (mapping : List (String × String)) (bt : String) (g : RNG) :
    (mapping.find? (fun e =>
        e.1 = (generate_record startOrd days_diff products mapping bt g).1.product) = none →
      (generate_record startOrd days_diff products mapping bt g).1.category = "General") ∧
    (∀ e0, mapping.find? (fun e =>
        e.1 = (generate_record startOrd days_diff products mapping bt g).1.product) = some e0 →
      (generate_record startOrd days_diff products mapping bt g).1.category = e0.2) := by
  have hcat : (generate_record startOrd days_diff products mapping bt g).1.category =
      categoryOf mapping ((generate_record startOrd days_diff products mapping bt g).1.product) :=
    rfl
  constructor
  · intro h
    rw [hcat]
    unfold categoryOf
    rw [h]
    rfl
  · intro e0 h
    rw [hcat]
    unfold categoryOf
    rw [h]
    rfl

/-- Witness for C10: with an empty mapping the drawn product is uncovered
and the produced record's category is the literal `"General"`. -/
theorem C10_category_default_witness :
    ([] : List (String × String)).find? (fun e =>
      e.1 = (generate_record 0 1 ["X"] [] "general" gZero).1.product) = none ∧
    (generate_record 0 1 ["X"] [] "general" gZero).1.category = "General" :=
  ⟨by decide, (C10_category_default 0 1 ["X"] [] "general" gZero).1 (by decide)⟩

/-- C6 counterexample: on a major state the code truncates twice — after
the location multiplier and again after the channel multiplier — so for
base 8009, location factor 1.1 and channel factor 1.1 it returns
`int(int(8009 * 1.1) * 1.1) = 9689`, while the claim's single truncation
of the composition gives `int(8009 * 1.1 * 1.1) = 9690`. -/
theorem C6_truncation_counterexample :
    (generate_budget "P" "C" "California" "Retail" "general" gC6).1 = 9689 ∧
    budget_single_trunc (8000 + ((gC6.nats gC6.seed 0 : ℕ) : ℤ) % 73001) true
      (PyF.add ⟨11, 10⟩ (PyF.mul (PyF.sub ⟨14, 10⟩ ⟨11, 10⟩) (gC6.units gC6.seed 1)))
      (PyF.add ⟨9, 10⟩ (PyF.mul (PyF.sub ⟨11, 10⟩ ⟨9, 10⟩) (gC6.units gC6.seed 3))) = 9690 ∧
    (9689 : ℤ) ≠ 9690 := by decide

/-- C6 (amended): the budget is computed from the base range selected by
substring-containment first-match over the fixed business-key table
(falling back to the generic range when no key matches), a `randint` base
draw, then — exactly on the fixed major states — a uniform `[1.1, 1.4]`
factor with an immediate truncation to an integer, then the
channel-specific uniform factor (all five channel factors are drawn, in
the dict's insertion order, and the one matching the channel is used),
with a second truncation at the end.  The draws sit at the stated
positions of the ambient stream. -/
theorem C6_budget_amended (product category state channel business_type : String)
    (g : RNG) (hc : channel ∈ CHANNELS) :
    ((generate_budget product category state channel business_type g).1 =
      (let r := lookupRange (business_key business_type)
       let base : ℤ := r.1 + (g.nats g.seed g.idx : ℤ) % (r.2 - r.1 + 1)
       let maj := major_states.contains state
       let u1 : PyF := PyF.add ⟨11, 10⟩
         (PyF.mul (PyF.sub ⟨14, 10⟩ ⟨11, 10⟩) (g.units g.seed (g.idx + 1)))
       let b1 : ℤ := if maj then pyInt (PyF.mul (PyF.ofInt base) u1) else base
       let j : ℕ := if maj then g.idx + 2 else g.idx + 1
       let uc : PyF :=
         if channel = "Online" then
           PyF.add ⟨8, 10⟩ (PyF.mul (PyF.sub ⟨12, 10⟩ ⟨8, 10⟩) (g.units g.seed j))
         else if channel = "Retail" then
           PyF.add ⟨9, 10⟩ (PyF.mul (PyF.sub ⟨11, 10⟩ ⟨9, 10⟩) (g.units g.seed (j + 1)))
         else if channel = "Direct Sales" then
           PyF.add ⟨11, 10⟩ (PyF.mul (PyF.sub ⟨14, 10⟩ ⟨11, 10⟩) (g.units g.seed (j + 2)))
         else if channel = "Partner" then
           PyF.add ⟨7, 10⟩ (PyF.mul (PyF.sub ⟨1, 1⟩ ⟨7, 10⟩) (g.units g.seed (j + 3)))
         else
           PyF.add ⟨6, 10⟩ (PyF.mul (PyF.sub ⟨9, 10⟩ ⟨6, 10⟩) (g.units g.seed (j + 4)))
       pyInt (PyF.mul (PyF.ofInt b1) uc))) ∧
    ((base_ranges.map Prod.fst).all
        (fun k => !isSubstrB (strCodes k) (pyLower business_type)) = true →
      lookupRange (business_key business_type) = (8000, 80000)) := by
  constructor
  · simp only [CHANNELS, List.mem_cons, List.not_mem_nil, or_false] at hc
    rcases hc with rfl | rfl | rfl | rfl | rfl <;>
      by_cases hb : state ∈ major_states <;>
        simp [generate_budget, randint, uniformF, RNG.next, List.find?,
          List.elem_eq_mem, hb]
  · intro hall
    have hk : business_key business_type = "general" := by
      unfold business_key
      simp only [base_ranges, List.map_cons, List.map_nil, List.all_cons, List.all_nil,
        Bool.and_eq_true, Bool.not_eq_true'] at hall ⊢
      simp [bkLoop, hall.1, hall.2.1, hall.2.2.1, hall.2.2.2.1, hall.2.2.2.2.1,
        hall.2.2.2.2.2.1, hall.2.2.2.2.2.2.1, hall.2.2.2.2.2.2.2.1]
    rw [hk]
    decide

/-- Witness for C6 (amended) at concrete arguments (major state Texas,
channel Online, business type tech, the all-zero oracle). -/
theorem C6_budget_amended_witness :
    ("Online" ∈ CHANNELS) ∧
    (((generate_budget "P" "C" "Texas" "Online" "tech" gZero).1 =
      (let r := lookupRange (business_key "tech")
       let base : ℤ := r.1 + (gZero.nats gZero.seed gZero.idx : ℤ) % (r.2 - r.1 + 1)
       let maj := major_states.contains "Texas"
       let u1 : PyF := PyF.add ⟨11, 10⟩
         (PyF.mul (PyF.sub ⟨14, 10⟩ ⟨11, 10⟩) (gZero.units gZero.seed (gZero.idx + 1)))
       let b1 : ℤ := if maj then pyInt (PyF.mul (PyF.ofInt base) u1) else base
       let j : ℕ := if maj then gZero.idx + 2 else gZero.idx + 1
       let uc : PyF :=
         if ("Online" : String) = "Online" then
           PyF.add ⟨8, 10⟩ (PyF.mul (PyF.sub ⟨12, 10⟩ ⟨8, 10⟩) (gZero.units gZero.seed j))
         else if ("Online" : String) = "Retail" then
           PyF.add ⟨9, 10⟩ (PyF.mul (PyF.sub ⟨11, 10⟩ ⟨9, 10⟩) (gZero.units gZero.seed (j + 1)))
         else if ("Online" : String) = "Direct Sales" then
           PyF.add ⟨11, 10⟩ (PyF.mul (PyF.sub ⟨14, 10⟩ ⟨11, 10⟩) (gZero.units gZero.seed (j + 2)))
         else if ("Online" : String) = "Partner" then
           PyF.add ⟨7, 10⟩ (PyF.mul (PyF.sub ⟨1, 1⟩ ⟨7, 10⟩) (gZero.units gZero.seed (j + 3)))
         else
           PyF.add ⟨6, 10⟩ (PyF.mul (PyF.sub ⟨9, 10⟩ ⟨6, 10⟩) (gZero.units gZero.seed (j + 4)))
       pyInt (PyF.mul (PyF.ofInt b1) uc))) ∧
     ((base_ranges.map Prod.fst).all
        (fun k => !isSubstrB (strCodes k) (pyLower "tech")) = true →
      lookupRange (business_key "tech") = (8000, 80000))) :=
  ⟨by decide, C6_budget_amended "P" "C" "Texas" "Online" "tech" gZero (by decide)⟩

/-- C4: the code's if/elif keyword cascade agrees everywhere with the
spec's ordered (tag, keyword set, profile) table under first-match; with
no keyword matching it yields the generic profile; and the concrete
example resolves via the contained keyword `"cafe"` to the restaurant
profile, whose five categories are as claimed. -/
theorem C4_classification :
    (∀ s, generate_smart_fallback s = classifySpec s) ∧
    (∀ s, allKeywords.all (fun kw => !isSubstrB (strCodes kw) (pyLower s)) = true →
      generate_smart_fallback s = generate_generic_data) ∧
    isSubstrB (strCodes "cafe") (pyLower "cozy neighborhood cafe") = true ∧
    generate_smart_fallback "cozy neighborhood cafe" = generate_restaurant_data ∧
    generate_restaurant_data.2.1 =
      ["Appetizers", "Main Courses", "Beverages", "Desserts", "Specials"] := by
  refine ⟨?_, ?_, by decide, by decide, by decide⟩
  · intro s
    unfold generate_smart_fallback classifySpec classify_table
    cases h1 : (["restaurant", "food", "cafe", "dining", "kitchen"].any
        (fun kw => isSubstrB (strCodes kw) (pyLower s)))
    case true => simp [List.find?, h1]
    case false =>
    cases h2 : (["fitness", "gym", "health", "wellness", "sport"].any
        (fun kw => isSubstrB (strCodes kw) (pyLower s)))
    case true => simp [List.find?, h1, h2]
    case false =>
    cases h3 : (["tech", "software", "electronics", "computer", "digital"].any
        (fun kw => isSubstrB (strCodes kw) (pyLower s)))
    case true => simp [List.find?, h1, h2, h3]
    case false =>
    cases h4 : (["clothing", "fashion", "apparel", "retail", "boutique"].any
        (fun kw => isSubstrB (strCodes kw) (pyLower s)))
    case true => simp [List.find?, h1, h2, h3, h4]
    case false =>
    cases h5 : (["automotive", "car", "vehicle", "auto"].any
        (fun kw => isSubstrB (strCodes kw) (pyLower s)))
    case true => simp [List.find?, h1, h2, h3, h4, h5]
    case false =>
    cases h6 : (["beauty", "cosmetic", "skincare", "salon"].any
        (fun kw => isSubstrB (strCodes kw) (pyLower s)))
    case true => simp [List.find?, h1, h2, h3, h4, h5, h6]
    case false =>
    cases h7 : (["home", "furniture", "decor", "garden"].any
        (fun kw => isSubstrB (strCodes kw) (pyLower s)))
    case true => simp [List.find?, h1, h2, h3, h4, h5, h6, h7]
    case false => simp [List.find?, h1, h2, h3, h4, h5, h6, h7]
  · intro s hall
    simp only [allKeywords, classify_table, List.map_cons, List.map_nil, List.flatten_cons,
      List.flatten_nil, List.append_nil, List.cons_append, List.nil_append, List.all_cons,
      List.all_nil, Bool.and_eq_true, Bool.not_eq_true'] at hall
    simp_all [generate_smart_fallback, List.any_cons, List.any_nil]

/-- Witness for C4 at the concrete no-keyword input. -/
theorem C4_classification_witness :
    allKeywords.all (fun kw => !isSubstrB (strCodes kw) (pyLower "zzz")) = true ∧
    generate_smart_fallback "zzz" = generate_generic_data :=
  ⟨by decide, C4_classification.2.1 "zzz" (by decide)⟩

